import Mathlib

/-!
Shallow embedding of the `logs` package (logs.go): a zap-based logging
facade with two lumberjack rotation sinks, severity routing, and a
panic-stack reporter.  Third-party behavior (zapcore level parsing and
ordering, zap field sweetening) is modelled from those libraries'
documented semantics where the package calls into them.
-/

namespace Logs

/-- Severity levels of zapcore, in the order used by the package
(debug < info < warn < error < dpanic < panic < fatal). -/
inductive Level where
  | debug
  | info
  | warn
  | error
  | dpanic
  | panic
  | fatal
deriving DecidableEq

/-- Numeric value of each zapcore level (DebugLevel = -1 through FatalLevel = 5);
level comparisons in the source are comparisons of these numbers. -/
def Level.toInt : Level → Int
  | .debug => -1
  | .info => 0
  | .warn => 1
  | .error => 2
  | .dpanic => 3
  | .panic => 4
  | .fatal => 5

/-- Models zapcore.Level.UnmarshalText: the recognized level strings
(lower- and upper-case, with the empty string meaning info); `none` means
the parse failed and the atomic level is left unchanged. -/
def unmarshalText (s : String) : Option Level :=
  if s = "debug" ∨ s = "DEBUG" then some .debug
  else if s = "info" ∨ s = "INFO" ∨ s = "" then some .info
  else if s = "warn" ∨ s = "WARN" then some .warn
  else if s = "error" ∨ s = "ERROR" then some .error
  else if s = "dpanic" ∨ s = "DPANIC" then some .dpanic
  else if s = "panic" ∨ s = "PANIC" then some .panic
  else if s = "fatal" ∨ s = "FATAL" then some .fatal
  else none

/-- The effective minimum level computed in InitLogSetting: the atomic level
starts at DebugLevel and the UnmarshalText error is discarded, so a failed
parse leaves the level at debug. -/
def parseLevel (s : String) : Level :=
  (unmarshalText s).getD Level.debug

/-- LogConfig from logs.go: file name stem, level string, retention age in
days, and the local-time flag (documented as true = local time, false = UTC). -/
structure LogConfig where
  fileName : String
  level : String
  maxAge : Int
  localTime : Bool
deriving DecidableEq

/-- The fields of a lumberjack.Logger that the package sets: target path,
max retention age in days, and whether rotation timestamps use local time. -/
structure LumberjackLogger where
  filename : String
  maxAge : Int
  localTime : Bool
deriving DecidableEq

/-- The default configuration the package variable `conf` points to. -/
def defaultConf : LogConfig :=
  { fileName := "log", level := "debug", maxAge := 20, localTime := true }

/-- Package-level mutable state.  Go configs are passed by pointer, so we
model a heap of LogConfig objects indexed by Nat pointers; `confPtr` is the
package variable `conf` (which InitLogSetting never reassigns, its parameter
shadowing it).  `logFileHook`, `errLogFileHook` and `loggerLevel` are the
sink handles and the minimum level the active logger was built from. -/
structure PkgState where
  heap : List LogConfig
  confPtr : Nat
  logFileHook : LumberjackLogger
  errLogFileHook : LumberjackLogger
  loggerLevel : Level
deriving DecidableEq

/-- Dereference a config pointer (out-of-range reads model Go pointer misuse
and return the default config; theorems that care add a bounds hypothesis). -/
def heapGet (h : List LogConfig) (p : Nat) : LogConfig :=
  h.getD p defaultConf

/-- GetLogConf returns the package variable `conf`: the pointer, not a copy. -/
def GetLogConf (s : PkgState) : Nat :=
  s.confPtr

/-- InitLogSetting from logs.go: parses the level (errors ignored), rebuilds
both lumberjack hooks — note the source hardcodes LocalTime: true for both,
ignoring the config's LocalTime field — and rebuilds the logger cores from
the parsed level.  The package variable `conf` is not touched. -/
def InitLogSetting (s : PkgState) (p : Nat) : PkgState :=
  let c := heapGet s.heap p
  { s with
    logFileHook :=
      { filename := "./logs/" ++ c.fileName ++ ".log"
        maxAge := c.maxAge
        localTime := true }
    errLogFileHook :=
      { filename := "./logs/" ++ c.fileName ++ "_err.log"
        maxAge := c.maxAge
        localTime := true }
    loggerLevel := parseLevel c.level }

/-- A caller mutating the shared config object through the pointer returned
by GetLogConf (the README pattern: get, mutate, re-initialize). -/
def setConf (s : PkgState) (c : LogConfig) : PkgState :=
  { s with heap := s.heap.set s.confPtr c }

/-- The state at package load: `init` runs InitLogSetting on the default
config exactly once.  Before that the logger is zap.NewProduction, whose
minimum level is info; the hook pointers are nil (empty placeholders). -/
def initialState : PkgState :=
  InitLogSetting
    { heap := [defaultConf]
      confPtr := 0
      logFileHook := { filename := "", maxAge := 0, localTime := false }
      errLogFileHook := { filename := "", maxAge := 0, localTime := false }
      loggerLevel := Level.info }
    0

/-- filePriority in InitLogSetting: lvl >= logLevel. -/
def filePriority (minL lvl : Level) : Bool :=
  decide (minL.toInt ≤ lvl.toInt)

/-- errPriority in InitLogSetting: lvl >= logLevel && lvl >= ErrorLevel. -/
def errPriority (minL lvl : Level) : Bool :=
  decide (minL.toInt ≤ lvl.toInt) && decide (Level.error.toInt ≤ lvl.toInt)

/-- stdoutPriority in InitLogSetting: lvl >= logLevel && lvl < ErrorLevel. -/
def stdoutPriority (minL lvl : Level) : Bool :=
  decide (minL.toInt ≤ lvl.toInt) && decide (lvl.toInt < Level.error.toInt)

/-- The stderr core is constructed with errPriority itself. -/
def stderrPriority (minL lvl : Level) : Bool :=
  errPriority minL lvl

/-- The four destinations wired into zapcore.NewTee. -/
inductive Sink where
  | mainFile
  | errFile
  | stdout
  | stderr
deriving DecidableEq

/-- Which sinks accept a record at level `lvl` when the configured minimum
is `minL`, in the order the cores appear in zapcore.NewTee. -/
def route (minL lvl : Level) : List Sink :=
  (if filePriority minL lvl then [Sink.mainFile] else []) ++
  (if errPriority minL lvl then [Sink.errFile] else []) ++
  (if stdoutPriority minL lvl then [Sink.stdout] else []) ++
  (if stderrPriority minL lvl then [Sink.stderr] else [])

/-- A Go `interface\x7b\x7d` value as it appears in variadic log arguments:
a string, an integer, or a slice (the case produced by passing a whole
`args` slice as a single variadic element). -/
inductive SVal where
  | str (s : String)
  | int (n : Int)
  | slice (xs : List SVal)

/-- One routed emission: destination sink, record level, raw arguments. -/
def Emission : Type :=
  Sink × Level × List SVal

/-- Fan a record out to the sinks whose predicates accept it, as the tee of
cores does for a write through the active logger. -/
def logAt (s : PkgState) (lvl : Level) (args : List SVal) : List Emission :=
  (route s.loggerLevel lvl).map fun k => (k, lvl, args)

/-- logs.Debug: delegates to the sugared logger at debug level;
touches no package variable. -/
def Debug (s : PkgState) (v : List SVal) : PkgState × List Emission :=
  (s, logAt s Level.debug v)

/-- logs.Debugf: format string plus positional arguments, debug level. -/
def Debugf (s : PkgState) (format : String) (v : List SVal) :
    PkgState × List Emission :=
  (s, logAt s Level.debug (SVal.str format :: v))

/-- logs.Debugw: message plus alternating key/values, debug level. -/
def Debugw (s : PkgState) (msg : String) (keysAndValues : List SVal) :
    PkgState × List Emission :=
  (s, logAt s Level.debug (SVal.str msg :: keysAndValues))

/-- logs.Info. -/
def Info (s : PkgState) (v : List SVal) : PkgState × List Emission :=
  (s, logAt s Level.info v)

/-- logs.Infof. -/
def Infof (s : PkgState) (format : String) (v : List SVal) :
    PkgState × List Emission :=
  (s, logAt s Level.info (SVal.str format :: v))

/-- logs.Infow. -/
def Infow (s : PkgState) (msg : String) (keysAndValues : List SVal) :
    PkgState × List Emission :=
  (s, logAt s Level.info (SVal.str msg :: keysAndValues))

/-- logs.Warn. -/
def Warn (s : PkgState) (v : List SVal) : PkgState × List Emission :=
  (s, logAt s Level.warn v)

/-- logs.Warnf. -/
def Warnf (s : PkgState) (format : String) (v : List SVal) :
    PkgState × List Emission :=
  (s, logAt s Level.warn (SVal.str format :: v))

/-- logs.Warnw. -/
def Warnw (s : PkgState) (msg : String) (keysAndValues : List SVal) :
    PkgState × List Emission :=
  (s, logAt s Level.warn (SVal.str msg :: keysAndValues))

/-- logs.Error. -/
def Error (s : PkgState) (v : List SVal) : PkgState × List Emission :=
  (s, logAt s Level.error v)

/-- logs.Errorf. -/
def Errorf (s : PkgState) (format : String) (v : List SVal) :
    PkgState × List Emission :=
  (s, logAt s Level.error (SVal.str format :: v))

/-- logs.Errorw. -/
def Errorw (s : PkgState) (msg : String) (keysAndValues : List SVal) :
    PkgState × List Emission :=
  (s, logAt s Level.error (SVal.str msg :: keysAndValues))

/-- logs.Sync: flushes the sugared logger and returns its error; it reads
the logger reference and assigns no package variable. -/
def Sync (s : PkgState) : PkgState × Option String :=
  (s, none)

/-- A structured field attached to a zap logger. -/
inductive Field where
  | kv (key : String) (val : SVal)

/-- Result of zap's sweetenFields on a raw argument list: the key/value
fields it accepts, a trailing element it ignored for lacking a value (zap
logs the error message Ignored key without a value), and the non-string-keyed
pairs it ignored (zap logs them under a non-string-key error). -/
structure SweetenResult where
  fields : List Field
  danglingKey : Option SVal
  invalidPairs : List (SVal × SVal)

/-- Models zap SugaredLogger field sweetening: arguments are consumed in
key/value pairs; a string key yields a field; a non-string key invalidates
the pair; a final unpaired element is ignored as a dangling key. -/
def sweetenFields : List SVal → SweetenResult
  | [] => { fields := [], danglingKey := none, invalidPairs := [] }
  | [x] => { fields := [], danglingKey := some x, invalidPairs := [] }
  | x :: y :: rest =>
      let r := sweetenFields rest
      match x with
      | SVal.str k => { r with fields := Field.kv k y :: r.fields }
      | _ => { r with invalidPairs := (x, y) :: r.invalidPairs }

/-- A zap sugared logger handle: the structured fields bound to it. -/
structure Sugared where
  fields : List Field

/-- zap SugaredLogger.With: sweetens the arguments and binds the resulting
fields onto a child logger. -/
def SugaredWith (lg : Sugared) (args : List SVal) : Sugared :=
  { fields := lg.fields ++ (sweetenFields args).fields }

/-- logs.With as written in the source: `l.With(args)` — the args slice is
passed as ONE variadic element, not spread with an ellipsis, so zap sees a
single-element argument list whose element is the slice. -/
def With (lg : Sugared) (args : List SVal) : Sugared :=
  SugaredWith lg [SVal.slice args]

/-- Modelled from the spec: WithFields as documented, the arguments spread
as alternating key/value pairs (what `l.With(args...)` would do). -/
def WithSpec (lg : Sugared) (args : List SVal) : Sugared :=
  SugaredWith lg args

/-- A stack frame as reported by runtime.Caller: function name, file, line. -/
structure Frame where
  funcName : String
  file : String
  line : Nat
deriving DecidableEq

/-- The message built by Errorf for one stack frame in PrintPanicStack. -/
def frameMsg (i : Nat) (f : Frame) : String :=
  "frame " ++ toString i ++ ":[func:" ++ f.funcName ++ ",file:" ++ f.file ++
    ",line:" ++ toString f.line ++ "]\n"

/-- The message built by Errorf for one extra diagnostic in PrintPanicStack,
given the deep dump produced by spew.Sdump. -/
def extraMsg (k : Nat) (dump : String) : String :=
  "EXTRAS#" ++ toString k ++ " DATA:" ++ dump ++ "\n"

/-- The runtime.Caller loop of PrintPanicStack: starting at index `i`, one
error-level record per remaining frame until Caller reports no more. -/
def callerLoop : List Frame → Nat → List (Level × String)
  | [], _ => []
  | f :: rest, i => (Level.error, frameMsg i f) :: callerLoop rest (i + 1)

/-- The extras loop of PrintPanicStack: one error-level record per supplied
diagnostic, dumped with `sdump` (modelling spew.Sdump) and labelled with its
index. -/
def extrasLoop (sdump : String → String) : List String → Nat → List (Level × String)
  | [], _ => []
  | d :: rest, k => (Level.error, extraMsg k (sdump d)) :: extrasLoop sdump rest (k + 1)

/-- PrintPanicStack from logs.go.  `panicking` is the panic in flight when
the deferred call runs (`recover` returns it, or nil); `stack` is the call
stack from the reporter's own frame outward; `extras` are the extra
diagnostics; `sdump` models spew.Sdump.  Returns the (unchanged) package
state, the records logged (all through Error/Errorf, hence at error level),
and the panic still propagating afterwards — recover consumes it, so the
caller resumes normally. -/
def PrintPanicStack (sdump : String → String) (s : PkgState)
    (panicking : Option String) (stack : List Frame) (extras : List String) :
    PkgState × List (Level × String) × Option String :=
  match panicking with
  | none => (s, [], none)
  | some x =>
      (s,
        (Level.error, x) :: (callerLoop stack 0 ++ extrasLoop sdump extras 0),
        none)

/-- A blank lumberjack handle, modelling a nil pointer before first init. -/
def nilHook : LumberjackLogger :=
  { filename := "", maxAge := 0, localTime := false }

/-- A package state before any InitLogSetting ran, over a given heap of
config objects with `conf` pointing at `p` (pre-init logger is
zap.NewProduction, whose minimum level is info). -/
def preInitState (h : List LogConfig) (p : Nat) : PkgState :=
  { heap := h
    confPtr := p
    logFileHook := nilHook
    errLogFileHook := nilHook
    loggerLevel := Level.info }

/-- A configuration that requests UTC rotation timestamps. -/
def utcConf : LogConfig :=
  { fileName := "app", level := "info", maxAge := 7, localTime := false }

/-- A configuration with an unrecognized level string. -/
def badLevelConf : LogConfig :=
  { fileName := "svc", level := "verbose", maxAge := 3, localTime := true }

/-- A second config object a caller might allocate and pass to
InitLogSetting instead of the package's own default one. -/
def otherConf : LogConfig :=
  { fileName := "app2", level := "warn", maxAge := 5, localTime := true }

/-- State whose heap holds the package default config (pointer 0) and a
caller-allocated second config (pointer 1). -/
def twoConfState : PkgState :=
  preInitState [defaultConf, otherConf] 0

/-- State whose heap holds only the unrecognized-level config. -/
def badLevelState : PkgState :=
  preInitState [badLevelConf] 0

theorem heapGet_set (h : List LogConfig) (p : Nat) (c : LogConfig)
    (hp : p < h.length) : heapGet (h.set p c) p = c := by
  induction h generalizing p with
  | nil => simp at hp
  | cons a t ih =>
    cases p with
    | zero => rfl
    | succ q =>
      have hq : q < t.length := by simpa using hp
      simpa [heapGet, List.getD] using ih q hq

theorem callerLoop_enumFrom (l : List Frame) :
    ∀ i, callerLoop l i =
      (List.enumFrom i l).map fun p => (Level.error, frameMsg p.1 p.2) := by
  induction l with
  | nil => intro i; rfl
  | cons f rest ih => intro i; simp [callerLoop, List.enumFrom, ih]

theorem extrasLoop_enumFrom (sdump : String → String) (l : List String) :
    ∀ k, extrasLoop sdump l k =
      (List.enumFrom k l).map fun p => (Level.error, extraMsg p.1 (sdump p.2)) := by
  induction l with
  | nil => intro k; rfl
  | cons d rest ih => intro k; simp [extrasLoop, List.enumFrom, ih]

/-- C1 counterexample: the claim asserts every record at level ≥ error
appears in the main file, the error file, and stderr.  With the minimum
level configured to fatal, a record at error level (which is ≥ error) is
accepted by none of the three sinks. -/
theorem c1_counterexample :
    Level.error.toInt ≤ Level.error.toInt ∧
    Sink.errFile ∉ route Level.fatal Level.error ∧
    Sink.stderr ∉ route Level.fatal Level.error ∧
    Sink.mainFile ∉ route Level.fatal Level.error := by
  decide

/-- C1 (amended): the four sink predicates hold independently exactly as
claimed (main file iff level ≥ minimum; error file iff level ≥ minimum and
≥ error; stdout iff minimum ≤ level < error; stderr iff the error-file
predicate holds).  In particular a record at level ≥ error THAT ALSO MEETS
THE MINIMUM LEVEL goes to the main file, the error file, and stderr; and a
record with minimum ≤ level < error goes to stdout and not to stderr. -/
theorem c1_routing (minL lvl : Level) :
    (Sink.mainFile ∈ route minL lvl ↔ minL.toInt ≤ lvl.toInt) ∧
    (Sink.errFile ∈ route minL lvl ↔
      minL.toInt ≤ lvl.toInt ∧ Level.error.toInt ≤ lvl.toInt) ∧
    (Sink.stdout ∈ route minL lvl ↔
      minL.toInt ≤ lvl.toInt ∧ lvl.toInt < Level.error.toInt) ∧
    (Sink.stderr ∈ route minL lvl ↔ Sink.errFile ∈ route minL lvl) ∧
    (minL.toInt ≤ lvl.toInt → Level.error.toInt ≤ lvl.toInt →
      Sink.mainFile ∈ route minL lvl ∧ Sink.errFile ∈ route minL lvl ∧
        Sink.stderr ∈ route minL lvl) ∧
    (minL.toInt ≤ lvl.toInt → lvl.toInt < Level.error.toInt →
      Sink.stdout ∈ route minL lvl ∧ Sink.stderr ∉ route minL lvl) := by
  cases minL <;> cases lvl <;>
    exact ⟨by decide, by decide, by decide, by decide, by decide, by decide⟩

/-- Witness for c1_routing: with minimum info, an error-level record goes
to the main file, the error file, and stderr. -/
theorem c1_routing_witness :
    Sink.mainFile ∈ route Level.info Level.error ∧
    Sink.errFile ∈ route Level.info Level.error ∧
    Sink.stderr ∈ route Level.info Level.error :=
  (c1_routing Level.info Level.error).2.2.2.2.1 (by decide) (by decide)

/-- C2: with a panic of value x in flight, PrintPanicStack leaves the
package state unchanged, consumes the panic (nothing propagates further, so
the caller resumes after the deferred call), and logs — all at error level —
first the recovered value, then one record per stack frame from the
reporter's own frame (index 0) outward carrying its function name, file and
line, then one record per extra diagnostic carrying its spew dump labelled
with its index. -/
theorem c2_panic_report (sdump : String → String) (s : PkgState) (x : String)
    (stack : List Frame) (extras : List String) :
    PrintPanicStack sdump s (some x) stack extras =
      (s,
        (Level.error, x) ::
          ((stack.enum.map fun p => (Level.error, frameMsg p.1 p.2)) ++
            (extras.enum.map fun p => (Level.error, extraMsg p.1 (sdump p.2)))),
        none) := by
  simp [PrintPanicStack, List.enum, callerLoop_enumFrom, extrasLoop_enumFrom]

/-- C3: the code hardcodes LocalTime: true on both lumberjack sinks, so even
a configuration whose LocalTime field is false (documented on LogConfig as
selecting UTC) yields sinks stamped with local time. -/
theorem c3_local_time_ignored :
    utcConf.localTime = false ∧
    (∀ (s : PkgState) (p : Nat),
      (InitLogSetting s p).logFileHook.localTime = true ∧
      (InitLogSetting s p).errLogFileHook.localTime = true) :=
  ⟨rfl, fun _ _ => ⟨rfl, rfl⟩⟩

/-- C4: when the configured level string is unrecognized, InitLogSetting
surfaces no error — initialization still completes, rebuilding the sinks —
and the effective minimum level silently stays at debug, the value the
freshly created atomic level held before the failed parse. -/
theorem c4_bad_level_silent (s : PkgState) (p : Nat)
    (h : unmarshalText (heapGet s.heap p).level = none) :
    (InitLogSetting s p).loggerLevel = Level.debug ∧
    (InitLogSetting s p).logFileHook.filename =
      "./logs/" ++ (heapGet s.heap p).fileName ++ ".log" := by
  refine ⟨?_, rfl⟩
  simp [InitLogSetting, parseLevel, h]

/-- Witness for c4_bad_level_silent at the concrete level string "verbose". -/
theorem c4_bad_level_silent_witness :
    unmarshalText (heapGet badLevelState.heap 0).level = none ∧
    (InitLogSetting badLevelState 0).loggerLevel = Level.debug ∧
    (InitLogSetting badLevelState 0).logFileHook.filename =
      "./logs/" ++ (heapGet badLevelState.heap 0).fileName ++ ".log" :=
  ⟨by decide, c4_bad_level_silent badLevelState 0 (by decide)⟩

/-- C5 counterexample: after InitLogSetting is called with a different
config object (pointer 1), GetLogConf still returns the package default
object (pointer 0, still holding defaultConf), while the active logger was
built from the other config — its sink path and minimum level come from
otherConf, not from the object GetLogConf returns. -/
theorem c5_counterexample :
    GetLogConf (InitLogSetting twoConfState 1) = 0 ∧
    heapGet (InitLogSetting twoConfState 1).heap
      (GetLogConf (InitLogSetting twoConfState 1)) = defaultConf ∧
    (InitLogSetting twoConfState 1).logFileHook.filename = "./logs/app2.log" ∧
    (InitLogSetting twoConfState 1).loggerLevel = Level.warn ∧
    parseLevel defaultConf.level = Level.debug ∧
    "./logs/" ++ defaultConf.fileName ++ ".log" ≠ "./logs/app2.log" := by
  refine ⟨rfl, by decide, by decide, by decide, by decide, by decide⟩

/-- C5 (amended): GetLogConf returns the package's own config object as a
shared reference: InitLogSetting never changes which object it returns
(even when initialized from another object, so the returned object need not
be the one the logger was built from); mutating the shared object by itself
changes neither sinks nor level; re-passing it to InitLogSetting applies
the mutation to the logger. -/
theorem c5_shared_reference (s : PkgState) (p : Nat) (c : LogConfig) :
    GetLogConf (InitLogSetting s p) = GetLogConf s ∧
    GetLogConf (setConf s c) = GetLogConf s ∧
    (setConf s c).logFileHook = s.logFileHook ∧
    (setConf s c).errLogFileHook = s.errLogFileHook ∧
    (setConf s c).loggerLevel = s.loggerLevel ∧
    (s.confPtr < s.heap.length →
      (InitLogSetting (setConf s c) (GetLogConf s)).loggerLevel =
        parseLevel c.level ∧
      (InitLogSetting (setConf s c) (GetLogConf s)).logFileHook.maxAge =
        c.maxAge) := by
  refine ⟨rfl, rfl, rfl, rfl, rfl, fun h => ?_⟩
  have hc : heapGet (setConf s c).heap (GetLogConf s) = c := heapGet_set _ _ _ h
  constructor
  · simp [InitLogSetting, setConf, GetLogConf] at hc ⊢
    rw [hc]
  · simp [InitLogSetting, setConf, GetLogConf] at hc ⊢
    rw [hc]

/-- Witness for c5_shared_reference: the README pattern on the concrete
two-config state — mutate through the shared pointer, re-initialize, and
the logger reflects the mutated config. -/
theorem c5_shared_reference_witness :
    GetLogConf (setConf twoConfState otherConf) = GetLogConf twoConfState ∧
    (InitLogSetting (setConf twoConfState otherConf)
        (GetLogConf twoConfState)).loggerLevel = parseLevel otherConf.level :=
  ⟨(c5_shared_reference twoConfState 1 otherConf).2.1,
    ((c5_shared_reference twoConfState 1 otherConf).2.2.2.2.2 (by decide)).1⟩

/-- C6: the source writes `l.With(args)` instead of `l.With(args...)`, so
the args slice reaches zap as ONE variadic element.  At the concrete input
("k", "v"), zap sees a single-element list whose sole element is a slice:
it is treated as a dangling key without a value and ignored (with an error
log), so the returned handle carries no fields — unlike the documented
behavior, modelled by WithSpec, which attaches the field k = v. -/
theorem c6_with_drops_fields :
    (With { fields := [] } [SVal.str "k", SVal.str "v"]).fields = [] ∧
    (sweetenFields [SVal.slice [SVal.str "k", SVal.str "v"]]).danglingKey =
      some (SVal.slice [SVal.str "k", SVal.str "v"]) ∧
    (WithSpec { fields := [] } [SVal.str "k", SVal.str "v"]).fields =
      [Field.kv "k" (SVal.str "v")] ∧
    (With { fields := [] } [SVal.str "k", SVal.str "v"]).fields ≠
      (WithSpec { fields := [] } [SVal.str "k", SVal.str "v"]).fields := by
  refine ⟨rfl, rfl, rfl, ?_⟩
  simp [With, WithSpec, SugaredWith, sweetenFields]

/-- C7: for every configuration, InitLogSetting binds the main sink to
./logs/stem.log and the error sink to ./logs/stem_err.log (paths relative
to the working directory), both with max retention age equal to the
configuration's MaxAge. -/
theorem c7_sink_paths (s : PkgState) (p : Nat) :
    (InitLogSetting s p).logFileHook.filename =
      "./logs/" ++ (heapGet s.heap p).fileName ++ ".log" ∧
    (InitLogSetting s p).errLogFileHook.filename =
      "./logs/" ++ (heapGet s.heap p).fileName ++ "_err.log" ∧
    (InitLogSetting s p).logFileHook.maxAge = (heapGet s.heap p).maxAge ∧
    (InitLogSetting s p).errLogFileHook.maxAge = (heapGet s.heap p).maxAge :=
  ⟨rfl, rfl, rfl, rfl⟩

/-- C8: with no panic in flight (recover returns nil), PrintPanicStack
logs nothing and leaves the package state untouched, however many extra
diagnostics were supplied. -/
theorem c8_no_panic_noop (sdump : String → String) (s : PkgState)
    (stack : List Frame) (extras : List String) :
    PrintPanicStack sdump s none stack extras = (s, [], none) :=
  rfl

/-- C9: calling InitLogSetting twice in succession with the same
configuration object yields exactly the state one call yields: same sink
paths, retention ages, and minimum level. -/
theorem c9_idempotent (s : PkgState) (p : Nat) :
    InitLogSetting (InitLogSetting s p) p = InitLogSetting s p :=
  rfl

/-- C10: every leveled call below fatal/panic severity and Sync return the
package state exactly as given — configuration heap, both sink handles, and
the logger all unchanged — while InitLogSetting does mutate them (shown at
a concrete state where the sink handle changes). -/
theorem c10_frame (s : PkgState) (v : List SVal) (format msg : String)
    (kvs : List SVal) :
    (Debug s v).1 = s ∧ (Debugf s format v).1 = s ∧ (Debugw s msg kvs).1 = s ∧
    (Info s v).1 = s ∧ (Infof s format v).1 = s ∧ (Infow s msg kvs).1 = s ∧
    (Warn s v).1 = s ∧ (Warnf s format v).1 = s ∧ (Warnw s msg kvs).1 = s ∧
    (Error s v).1 = s ∧ (Errorf s format v).1 = s ∧ (Errorw s msg kvs).1 = s ∧
    (Sync s).1 = s ∧
    (InitLogSetting (preInitState [otherConf] 0) 0).logFileHook ≠
      (preInitState [otherConf] 0).logFileHook :=
  ⟨rfl, rfl, rfl, rfl, rfl, rfl, rfl, rfl, rfl, rfl, rfl, rfl, rfl, by decide⟩

end Logs
